import Mathlib

/-!
Verification of the completion-request orchestration layer of the
multi-tile chat backend.  The definitions below are a shallow embedding of
the JavaScript source: `buildParams`, `callOpenAIWithRetries` and the
`/api/chat` endpoint handler, together with the legacy revision of the
endpoint kept in `index.js`.  Remote collaborators (the OpenAI completion
client, the Supabase message log and the token ledger) are modelled as
explicit parameters: the completion client is a function from the number
of calls already made and the request parameters to an outcome, and each
persistence operation is an `Except` value describing whether the awaited
promise resolves or rejects.
-/

/-- ASCII model of JavaScript `String.prototype.toLowerCase`. -/
def jsToLowerCase (s : String) : String := String.mk (s.data.map Char.toLower)

/-- Does `p` occur at the head of `l`? -/
def listStartsWith : List Char → List Char → Bool
  | [], _ => true
  | _ :: _, [] => false
  | p :: ps, c :: cs => p == c && listStartsWith ps cs

/-- Does `pat` occur anywhere inside the second list?  Model of
JavaScript `String.prototype.includes`. -/
def listOccurs (pat : List Char) : List Char → Bool
  | [] => listStartsWith pat []
  | c :: rest => listStartsWith pat (c :: rest) || listOccurs pat rest

/-- `s.includes(pat)` on strings. -/
def strIncludes (s pat : String) : Bool := listOccurs pat.data s.data

/-- `String(model || "").toLowerCase().includes("gpt-5-nano")`
(src/unnamed/part_001 lines 21-24). -/
def isNanoModel (model : String) : Bool :=
  strIncludes (jsToLowerCase model) "gpt-5-nano"

/-- Characters removed by JavaScript `String.prototype.trim`
(ASCII fragment, enough for this model). -/
def jsWhitespace (c : Char) : Bool := c == ' ' || c == '\t' || c == '\n' || c == '\r'

/-- Model of JavaScript `String.prototype.trim`. -/
def jsTrim (s : String) : String :=
  String.mk (((s.data.dropWhile jsWhitespace).reverse.dropWhile jsWhitespace).reverse)

/-- JavaScript `a || b` on an optional string: the right operand is used
when the left is `undefined`/`null` or the empty string (both falsy). -/
def jsOr (o : Option String) (d : String) : String :=
  match o with
  | none => d
  | some s => if s = "" then d else s

/-- One `{role, content}` entry of the `messages` array. -/
structure Msg where
  role : String
  content : String
  deriving DecidableEq

/-- The options bag accepted by `buildParams`; `nanoLimit` may be absent
(JavaScript `opts.nanoLimit ?? 150`). -/
structure BuildOpts where
  nanoLimit : Option Nat
  deriving DecidableEq

/-- The token-limit field of a request: the nano family uses
`max_completion_tokens`, general models use `max_tokens`. -/
inductive TokenLimitField where
  | maxCompletionTokens (n : Nat)
  | maxTokens (n : Nat)
  deriving DecidableEq

/-- The request payload produced by `buildParams`. -/
structure RequestParams where
  model : String
  messages : List Msg
  limit : TokenLimitField
  temperature : Option ℚ
  deriving DecidableEq

/-- System prompt of the nano branch (part_001 line 32). -/
def nanoSystemPrompt : String :=
  "You are a friendly Hinglish assistant. Keep responses short, clear, and conversational."

/-- System prompt of the general branch (part_001 line 47). -/
def generalSystemPrompt : String :=
  "You are a friendly Hinglish assistant. Answer clearly, simply, and conversationally under 400 words."

/-- The temperature constant of the general branch of `buildParams`
(part_001 line 52: `temperature: 1.0`). -/
def chatTemperature : ℚ := 1

/-- `buildParams(model, userMessage, opts)` (part_001 lines 20-54). -/
def buildParams (model userMessage : String) (opts : BuildOpts) : RequestParams :=
  if isNanoModel model then
    { model := model
      messages := [⟨"system", nanoSystemPrompt⟩, ⟨"user", userMessage⟩]
      limit := TokenLimitField.maxCompletionTokens (opts.nanoLimit.getD 150)
      temperature := none }
  else
    { model := model
      messages := [⟨"system", generalSystemPrompt⟩, ⟨"user", userMessage⟩]
      limit := TokenLimitField.maxTokens 400
      temperature := some chatTemperature }

/-- The `message` object inside a choice; `content` may be absent. -/
structure ChatMessage where
  content : Option String
  deriving DecidableEq

/-- One entry of `completion.choices`. -/
structure Choice where
  message : Option ChatMessage
  finish_reason : Option String
  deriving DecidableEq

/-- The `usage` object of a completion. -/
structure Usage where
  total_tokens : Option Nat
  deriving DecidableEq

/-- The completion object returned by the OpenAI client. -/
structure Completion where
  choices : List Choice
  usage : Option Usage
  deriving DecidableEq

/-- Outcome of one `openai.chat.completions.create(params)` call: the
awaited promise either resolves with a completion or rejects with an
error whose `message` we record. -/
inductive ClientResult where
  | ok (completion : Completion)
  | err (message : String)
  deriving DecidableEq

/-- A completion client: given the number of calls already made during
this orchestration and the request parameters, produce an outcome. -/
def CompletionClient : Type := Nat → RequestParams → ClientResult

/-- `completion?.choices?.[0]?.message?.content?.trim()`
(part_001 line 92), `none` standing for JavaScript `undefined`. -/
def extractText (c : Completion) : Option String :=
  match c.choices with
  | [] => none
  | ch :: _ => (ch.message.bind fun msg => msg.content).map jsTrim

/-- The truthiness test `if (candidate)` on the extracted text: the text
must be present and non-empty after trimming (part_001 line 96). -/
def nonEmptyText (c : Completion) : Option String :=
  match extractText c with
  | none => none
  | some s => if s = "" then none else some s

/-- One entry of the `attempts` array of `callOpenAIWithRetries`
(part_001 lines 66-70). -/
inductive AttemptType where
  | primary
  | nanoRetry
  | fallback
  deriving DecidableEq

structure Attempt where
  model : String
  type : AttemptType
  nanoLimit : Nat
  deriving DecidableEq

def dummyAttempt : Attempt := ⟨"", AttemptType.primary, 0⟩

/-- The `attempts` array (part_001 lines 66-70). -/
def attempts (configuredModel : String) : List Attempt :=
  [⟨configuredModel, AttemptType.primary, 150⟩,
   ⟨configuredModel, AttemptType.nanoRetry, 80⟩,
   ⟨"gpt-4o-mini", AttemptType.fallback, 150⟩]

/-- The skip test of the loop (part_001 line 80):
`attempt.type === "nano-retry" && !String(attempts[0].model).toLowerCase().includes("gpt-5-nano")`,
where `attempts[0].model` is the configured model. -/
def skipAttempt (configuredModel : String) (a : Attempt) : Bool :=
  decide (a.type = AttemptType.nanoRetry) && !isNanoModel configuredModel

/-- Result of `callOpenAIWithRetries`: either
`{ completion, modelUsed: params.model }` on the first non-empty answer,
or `{ completion: null, modelUsed: null, lastError }` after the loop. -/
inductive OrchOutcome where
  | success (completion : Completion) (modelUsed : String)
  | exhausted (lastError : Option String)
  deriving DecidableEq

def OrchOutcome.modelUsedOf : OrchOutcome → Option String
  | .success _ mu => some mu
  | .exhausted _ => none

def OrchOutcome.completionOf : OrchOutcome → Option Completion
  | .success c _ => some c
  | .exhausted _ => none

def OrchOutcome.lastErrorOf : OrchOutcome → Option String
  | .success _ _ => none
  | .exhausted le => le

/-- `completion?.usage?.total_tokens || 0` as evaluated by the caller on
an orchestration outcome. -/
def OrchOutcome.tokenCountOf : OrchOutcome → Nat
  | .success c _ => ((c.usage.bind fun u => u.total_tokens).getD 0)
  | .exhausted _ => 0

/-- The loop of `callOpenAIWithRetries` (part_001 lines 76-135), walking
the remaining attempts.  The extra `Nat` threads the number of client
calls made so far (instrumentation: it grows by one exactly when the
client is invoked) and the `Option String` is the current `lastError`
message.  In the error branch the three `if` arms of the source differ
only in what they log; all set `lastError = err` and `continue`. -/
def runAttempts (configuredModel userMessage : String) (client : CompletionClient) :
    List Attempt → Nat → Option String → OrchOutcome × Nat
  | [], calls, lastError => (OrchOutcome.exhausted lastError, calls)
  | a :: rest, calls, lastError =>
    if skipAttempt configuredModel a then
      runAttempts configuredModel userMessage client rest calls lastError
    else
      match client calls (buildParams a.model userMessage ⟨some a.nanoLimit⟩) with
      | ClientResult.ok completion =>
        match nonEmptyText completion with
        | some _ =>
          (OrchOutcome.success completion
            (buildParams a.model userMessage ⟨some a.nanoLimit⟩).model, calls + 1)
        | none =>
          runAttempts configuredModel userMessage client rest (calls + 1)
            (some "empty_response")
      | ClientResult.err e =>
        if (strIncludes (jsToLowerCase e) "invalid model"
              || strIncludes (jsToLowerCase e) "invalid model id"
              || strIncludes (jsToLowerCase e) "unknown model")
            && !(a.model == "gpt-4o-mini") then
          runAttempts configuredModel userMessage client rest (calls + 1) (some e)
        else if strIncludes (jsToLowerCase e) "unsupported parameter"
            || strIncludes (jsToLowerCase e) "unsupported value" then
          runAttempts configuredModel userMessage client rest (calls + 1) (some e)
        else
          runAttempts configuredModel userMessage client rest (calls + 1) (some e)

/-- `callOpenAIWithRetries(userMessage)` (part_001 lines 57-136), with the
configured model (read from the environment in the source) and the client
passed explicitly.  Also returns the number of client calls made. -/
def callOpenAIWithRetries (configuredModel userMessage : String)
    (client : CompletionClient) : OrchOutcome × Nat :=
  runAttempts configuredModel userMessage client (attempts configuredModel) 0 none

/-- The sub-list of the attempt plan that the loop actually attempts:
the entries not discarded by the skip test. -/
def effectivePlan (configuredModel : String) : List Attempt :=
  (attempts configuredModel).filter fun a => !skipAttempt configuredModel a

/-- The client outcome the orchestrator observes at position `i` of a
skip-free plan `l`, when `calls` calls were made before reaching `l`. -/
def stepOutcome (userMessage : String) (client : CompletionClient)
    (l : List Attempt) (calls i : Nat) : ClientResult :=
  client (calls + i)
    (buildParams (l.getD i dummyAttempt).model userMessage ⟨some (l.getD i dummyAttempt).nanoLimit⟩)

/-- Whether the attempt at position `i` yields a non-empty answer. -/
def stepSucc (userMessage : String) (client : CompletionClient)
    (l : List Attempt) (calls i : Nat) : Bool :=
  match stepOutcome userMessage client l calls i with
  | ClientResult.ok c => (nonEmptyText c).isSome
  | ClientResult.err _ => false

/-- The condition recorded into `lastError` by a failing attempt:
a synthetic `empty_response` for an empty success, the raised message
otherwise (part_001 lines 106 and 129). -/
def failCond : ClientResult → String
  | ClientResult.ok _ => "empty_response"
  | ClientResult.err e => e

theorem buildParams_model (model userMessage : String) (opts : BuildOpts) :
    (buildParams model userMessage opts).model = model := by
  unfold buildParams
  split <;> rfl

theorem runAttempts_skip_step (m msg : String) (client : CompletionClient)
    (a : Attempt) (rest : List Attempt) (calls : Nat) (le : Option String)
    (h : skipAttempt m a = true) :
    runAttempts m msg client (a :: rest) calls le =
      runAttempts m msg client rest calls le := by
  simp only [runAttempts, h, if_true]

theorem runAttempts_ok_some (m msg : String) (client : CompletionClient)
    (a : Attempt) (rest : List Attempt) (calls : Nat) (le : Option String)
    (c : Completion) (s : String)
    (hskip : skipAttempt m a = false)
    (hc : client calls (buildParams a.model msg ⟨some a.nanoLimit⟩) = ClientResult.ok c)
    (hne : nonEmptyText c = some s) :
    runAttempts m msg client (a :: rest) calls le =
      (OrchOutcome.success c a.model, calls + 1) := by
  simp only [runAttempts, hskip, Bool.false_eq_true, if_false, hc, hne, buildParams_model]

theorem runAttempts_ok_none (m msg : String) (client : CompletionClient)
    (a : Attempt) (rest : List Attempt) (calls : Nat) (le : Option String)
    (c : Completion)
    (hskip : skipAttempt m a = false)
    (hc : client calls (buildParams a.model msg ⟨some a.nanoLimit⟩) = ClientResult.ok c)
    (hne : nonEmptyText c = none) :
    runAttempts m msg client (a :: rest) calls le =
      runAttempts m msg client rest (calls + 1) (some "empty_response") := by
  simp only [runAttempts, hskip, Bool.false_eq_true, if_false, hc, hne]

theorem runAttempts_err_step (m msg : String) (client : CompletionClient)
    (a : Attempt) (rest : List Attempt) (calls : Nat) (le : Option String)
    (e : String)
    (hskip : skipAttempt m a = false)
    (hc : client calls (buildParams a.model msg ⟨some a.nanoLimit⟩) = ClientResult.err e) :
    runAttempts m msg client (a :: rest) calls le =
      runAttempts m msg client rest (calls + 1) (some e) := by
  simp only [runAttempts, hskip, Bool.false_eq_true, if_false, hc]
  split <;> first | rfl | split <;> rfl

theorem runAttempts_filter (m msg : String) (client : CompletionClient) :
    ∀ (l : List Attempt) (calls : Nat) (le : Option String),
      runAttempts m msg client l calls le =
        runAttempts m msg client (l.filter fun a => !skipAttempt m a) calls le := by
  intro l
  induction l with
  | nil => intro calls le; rfl
  | cons a rest ih =>
    intro calls le
    cases hskip : skipAttempt m a with
    | true =>
      rw [runAttempts_skip_step m msg client a rest calls le hskip]
      simp only [List.filter_cons, hskip, Bool.not_true]
      exact ih calls le
    | false =>
      simp only [List.filter_cons, hskip, Bool.not_false, if_true]
      cases hc : client calls (buildParams a.model msg ⟨some a.nanoLimit⟩) with
      | ok c =>
        cases hne : nonEmptyText c with
        | some s =>
          rw [runAttempts_ok_some m msg client a rest calls le c s hskip hc hne,
            runAttempts_ok_some m msg client a _ calls le c s hskip hc hne]
        | none =>
          rw [runAttempts_ok_none m msg client a rest calls le c hskip hc hne,
            runAttempts_ok_none m msg client a _ calls le c hskip hc hne]
          exact ih _ _
      | err e =>
        rw [runAttempts_err_step m msg client a rest calls le e hskip hc,
          runAttempts_err_step m msg client a _ calls le e hskip hc]
        exact ih _ _

theorem callOpenAI_eq_effective (m msg : String) (client : CompletionClient) :
    callOpenAIWithRetries m msg client =
      runAttempts m msg client (effectivePlan m) 0 none := by
  unfold callOpenAIWithRetries effectivePlan
  exact runAttempts_filter m msg client (attempts m) 0 none

theorem runAttempts_calls_ge (m msg : String) (client : CompletionClient) :
    ∀ (l : List Attempt) (calls : Nat) (le : Option String),
      calls ≤ (runAttempts m msg client l calls le).2 := by
  intro l
  induction l with
  | nil => intro calls le; exact Nat.le_refl calls
  | cons a rest ih =>
    intro calls le
    cases hskip : skipAttempt m a with
    | true =>
      rw [runAttempts_skip_step m msg client a rest calls le hskip]
      exact ih calls le
    | false =>
      cases hc : client calls (buildParams a.model msg ⟨some a.nanoLimit⟩) with
      | ok c =>
        cases hne : nonEmptyText c with
        | some s =>
          rw [runAttempts_ok_some m msg client a rest calls le c s hskip hc hne]
          exact Nat.le_succ calls
        | none =>
          rw [runAttempts_ok_none m msg client a rest calls le c hskip hc hne]
          exact Nat.le_trans (Nat.le_succ calls) (ih _ _)
      | err e =>
        rw [runAttempts_err_step m msg client a rest calls le e hskip hc]
        exact Nat.le_trans (Nat.le_succ calls) (ih _ _)

theorem runAttempts_calls_le (m msg : String) (client : CompletionClient) :
    ∀ (l : List Attempt) (calls : Nat) (le : Option String),
      (runAttempts m msg client l calls le).2 ≤ calls + l.length := by
  intro l
  induction l with
  | nil => intro calls le; exact Nat.le_add_right calls 0
  | cons a rest ih =>
    intro calls le
    have hlen : calls + 1 + rest.length = calls + (a :: rest).length := by
      simp only [List.length_cons]; omega
    cases hskip : skipAttempt m a with
    | true =>
      rw [runAttempts_skip_step m msg client a rest calls le hskip]
      exact Nat.le_trans (ih calls le) (by simp only [List.length_cons]; omega)
    | false =>
      cases hc : client calls (buildParams a.model msg ⟨some a.nanoLimit⟩) with
      | ok c =>
        cases hne : nonEmptyText c with
        | some s =>
          rw [runAttempts_ok_some m msg client a rest calls le c s hskip hc hne]
          simp only [List.length_cons]; omega
        | none =>
          rw [runAttempts_ok_none m msg client a rest calls le c hskip hc hne]
          exact Nat.le_trans (ih _ _) (Nat.le_of_eq hlen)
      | err e =>
        rw [runAttempts_err_step m msg client a rest calls le e hskip hc]
        exact Nat.le_trans (ih _ _) (Nat.le_of_eq hlen)

theorem runAttempts_calls_pos (m msg : String) (client : CompletionClient)
    (a : Attempt) (rest : List Attempt) (calls : Nat) (le : Option String)
    (hskip : skipAttempt m a = false) :
    calls + 1 ≤ (runAttempts m msg client (a :: rest) calls le).2 := by
  cases hc : client calls (buildParams a.model msg ⟨some a.nanoLimit⟩) with
  | ok c =>
    cases hne : nonEmptyText c with
    | some s =>
      rw [runAttempts_ok_some m msg client a rest calls le c s hskip hc hne]
    | none =>
      rw [runAttempts_ok_none m msg client a rest calls le c hskip hc hne]
      exact runAttempts_calls_ge m msg client rest (calls + 1) _
  | err e =>
    rw [runAttempts_err_step m msg client a rest calls le e hskip hc]
    exact runAttempts_calls_ge m msg client rest (calls + 1) _

theorem stepOutcome_shift (msg : String) (client : CompletionClient)
    (a : Attempt) (rest : List Attempt) (calls i : Nat) :
    stepOutcome msg client (a :: rest) calls (i + 1) =
      stepOutcome msg client rest (calls + 1) i := by
  simp only [stepOutcome, List.getD_cons_succ, Nat.add_succ, Nat.succ_add]

theorem stepSucc_shift (msg : String) (client : CompletionClient)
    (a : Attempt) (rest : List Attempt) (calls i : Nat) :
    stepSucc msg client (a :: rest) calls (i + 1) =
      stepSucc msg client rest (calls + 1) i := by
  simp only [stepSucc, stepOutcome_shift]

theorem stepOutcome_zero (msg : String) (client : CompletionClient)
    (a : Attempt) (rest : List Attempt) (calls : Nat) :
    stepOutcome msg client (a :: rest) calls 0 =
      client calls (buildParams a.model msg ⟨some a.nanoLimit⟩) := by
  simp only [stepOutcome, List.getD_cons_zero, Nat.add_zero]

theorem runAttempts_first_success (m msg : String) (client : CompletionClient) :
    ∀ (l : List Attempt) (calls : Nat) (le : Option String) (j : Nat),
      (∀ a ∈ l, skipAttempt m a = false) →
      j < l.length →
      (∀ i, i < j → stepSucc msg client l calls i = false) →
      stepSucc msg client l calls j = true →
      ∃ c, stepOutcome msg client l calls j = ClientResult.ok c ∧
        runAttempts m msg client l calls le =
          (OrchOutcome.success c (l.getD j dummyAttempt).model, calls + j + 1) := by
  intro l
  induction l with
  | nil =>
    intro calls le j _ hj
    exact absurd hj (Nat.not_lt_zero j)
  | cons a rest ih =>
    intro calls le j hsf hj hfail hsucc
    have hskip : skipAttempt m a = false := hsf a (List.mem_cons_self a rest)
    cases j with
    | zero =>
      rw [stepSucc] at hsucc
      cases hc : stepOutcome msg client (a :: rest) calls 0 with
      | ok c =>
        rw [hc] at hsucc
        obtain ⟨s, hs⟩ := Option.isSome_iff_exists.mp hsucc
        have hc' : client calls (buildParams a.model msg ⟨some a.nanoLimit⟩) =
            ClientResult.ok c := by rw [← stepOutcome_zero msg client a rest calls]; exact hc
        refine ⟨c, rfl, ?_⟩
        rw [runAttempts_ok_some m msg client a rest calls le c s hskip hc' hs]
        simp [List.getD_cons_zero]
      | err e =>
        rw [hc] at hsucc
        exact absurd hsucc (by simp)
    | succ j' =>
      have h0 : stepSucc msg client (a :: rest) calls 0 = false :=
        hfail 0 (Nat.succ_pos j')
      have hsf' : ∀ b ∈ rest, skipAttempt m b = false :=
        fun b hb => hsf b (List.mem_cons_of_mem a hb)
      have hj' : j' < rest.length := by
        simp only [List.length_cons] at hj; omega
      have hfail' : ∀ i, i < j' → stepSucc msg client rest (calls + 1) i = false := by
        intro i hi
        rw [← stepSucc_shift msg client a rest calls i]
        exact hfail (i + 1) (Nat.succ_lt_succ hi)
      have hsucc' : stepSucc msg client rest (calls + 1) j' = true := by
        rw [← stepSucc_shift msg client a rest calls j']
        exact hsucc
      rw [stepSucc] at h0
      cases hc : stepOutcome msg client (a :: rest) calls 0 with
      | ok c =>
        rw [hc] at h0
        have hc' : client calls (buildParams a.model msg ⟨some a.nanoLimit⟩) =
            ClientResult.ok c := by rw [← stepOutcome_zero msg client a rest calls]; exact hc
        have h0' : (nonEmptyText c).isSome = false := h0
        have hne : nonEmptyText c = none := by
          cases hx : nonEmptyText c with
          | none => rfl
          | some s => rw [hx] at h0'; simp at h0'
        obtain ⟨c', ho, hrun⟩ :=
          ih (calls + 1) (some "empty_response") j' hsf' hj' hfail' hsucc'
        refine ⟨c', ?_, ?_⟩
        · rw [stepOutcome_shift msg client a rest calls j']; exact ho
        · rw [runAttempts_ok_none m msg client a rest calls le c hskip hc' hne, hrun]
          simp only [List.getD_cons_succ, Prod.mk.injEq]
          exact ⟨trivial, by omega⟩
      | err e =>
        have hc' : client calls (buildParams a.model msg ⟨some a.nanoLimit⟩) =
            ClientResult.err e := by rw [← stepOutcome_zero msg client a rest calls]; exact hc
        obtain ⟨c', ho, hrun⟩ := ih (calls + 1) (some e) j' hsf' hj' hfail' hsucc'
        refine ⟨c', ?_, ?_⟩
        · rw [stepOutcome_shift msg client a rest calls j']; exact ho
        · rw [runAttempts_err_step m msg client a rest calls le e hskip hc', hrun]
          simp only [List.getD_cons_succ, Prod.mk.injEq]
          exact ⟨trivial, by omega⟩

theorem runAttempts_all_fail (m msg : String) (client : CompletionClient) :
    ∀ (l : List Attempt) (calls : Nat) (le : Option String),
      (∀ a ∈ l, skipAttempt m a = false) →
      l ≠ [] →
      (∀ i, i < l.length → stepSucc msg client l calls i = false) →
      runAttempts m msg client l calls le =
        (OrchOutcome.exhausted
            (some (failCond (stepOutcome msg client l calls (l.length - 1)))),
          calls + l.length) := by
  intro l
  induction l with
  | nil => intro calls le _ hne; exact absurd rfl hne
  | cons a rest ih =>
    intro calls le hsf _ hfail
    have hskip : skipAttempt m a = false := hsf a (List.mem_cons_self a rest)
    have h0 : stepSucc msg client (a :: rest) calls 0 = false :=
      hfail 0 (Nat.succ_pos rest.length)
    have h0' : (match stepOutcome msg client (a :: rest) calls 0 with
        | ClientResult.ok c => (nonEmptyText c).isSome
        | ClientResult.err _ => false) = false := h0
    cases hc : stepOutcome msg client (a :: rest) calls 0 with
    | ok c =>
      rw [hc] at h0'
      have h0'' : (nonEmptyText c).isSome = false := h0'
      have hne : nonEmptyText c = none := by
        cases hx : nonEmptyText c with
        | none => rfl
        | some s => rw [hx] at h0''; simp at h0''
      have hc' : client calls (buildParams a.model msg ⟨some a.nanoLimit⟩) =
          ClientResult.ok c := by rw [← stepOutcome_zero msg client a rest calls]; exact hc
      rw [runAttempts_ok_none m msg client a rest calls le c hskip hc' hne]
      cases rest with
      | nil =>
        rw [runAttempts]
        simp only [List.length_cons, List.length_nil, Nat.zero_add, Nat.add_sub_cancel, hc,
          failCond]
      | cons b rest' =>
        have hfail' : ∀ i, i < (b :: rest').length →
            stepSucc msg client (b :: rest') (calls + 1) i = false := by
          intro i hi
          rw [← stepSucc_shift msg client a (b :: rest') calls i]
          exact hfail (i + 1) (by simp only [List.length_cons] at hi ⊢; omega)
        rw [ih (calls + 1) (some "empty_response")
          (fun x hx => hsf x (List.mem_cons_of_mem a hx)) (List.cons_ne_nil b rest') hfail']
        have hshift : stepOutcome msg client (b :: rest') (calls + 1) ((b :: rest').length - 1) =
            stepOutcome msg client (a :: b :: rest') calls ((a :: b :: rest').length - 1) := by
          rw [← stepOutcome_shift msg client a (b :: rest') calls ((b :: rest').length - 1)]
          simp only [List.length_cons, Nat.add_sub_cancel]
        rw [hshift]
        simp only [List.length_cons, Prod.mk.injEq]
        exact ⟨trivial, by omega⟩
    | err e =>
      have hc' : client calls (buildParams a.model msg ⟨some a.nanoLimit⟩) =
          ClientResult.err e := by rw [← stepOutcome_zero msg client a rest calls]; exact hc
      rw [runAttempts_err_step m msg client a rest calls le e hskip hc']
      cases rest with
      | nil =>
        rw [runAttempts]
        simp only [List.length_cons, List.length_nil, Nat.zero_add, Nat.add_sub_cancel, hc,
          failCond]
      | cons b rest' =>
        have hfail' : ∀ i, i < (b :: rest').length →
            stepSucc msg client (b :: rest') (calls + 1) i = false := by
          intro i hi
          rw [← stepSucc_shift msg client a (b :: rest') calls i]
          exact hfail (i + 1) (by simp only [List.length_cons] at hi ⊢; omega)
        rw [ih (calls + 1) (some e)
          (fun x hx => hsf x (List.mem_cons_of_mem a hx)) (List.cons_ne_nil b rest') hfail']
        have hshift : stepOutcome msg client (b :: rest') (calls + 1) ((b :: rest').length - 1) =
            stepOutcome msg client (a :: b :: rest') calls ((a :: b :: rest').length - 1) := by
          rw [← stepOutcome_shift msg client a (b :: rest') calls ((b :: rest').length - 1)]
          simp only [List.length_cons, Nat.add_sub_cancel]
        rw [hshift]
        simp only [List.length_cons, Prod.mk.injEq]
        exact ⟨trivial, by omega⟩

theorem runAttempts_success_nonempty (m msg : String) (client : CompletionClient) :
    ∀ (l : List Attempt) (calls : Nat) (le : Option String) (c : Completion) (mu : String),
      (runAttempts m msg client l calls le).1 = OrchOutcome.success c mu →
      ∃ s, nonEmptyText c = some s := by
  intro l
  induction l with
  | nil =>
    intro calls le c mu h
    exact absurd h (by rw [runAttempts]; simp)
  | cons a rest ih =>
    intro calls le c mu h
    cases hskip : skipAttempt m a with
    | true =>
      rw [runAttempts_skip_step m msg client a rest calls le hskip] at h
      exact ih calls le c mu h
    | false =>
      cases hc : client calls (buildParams a.model msg ⟨some a.nanoLimit⟩) with
      | ok c0 =>
        cases hne : nonEmptyText c0 with
        | some s =>
          rw [runAttempts_ok_some m msg client a rest calls le c0 s hskip hc hne] at h
          have hcc : c0 = c := by
            have := congrArg OrchOutcome.completionOf h
            simpa [OrchOutcome.completionOf] using this
          exact ⟨s, hcc ▸ hne⟩
        | none =>
          rw [runAttempts_ok_none m msg client a rest calls le c0 hskip hc hne] at h
          exact ih _ _ c mu h
      | err e =>
        rw [runAttempts_err_step m msg client a rest calls le e hskip hc] at h
        exact ih _ _ c mu h

theorem skipAttempt_primary (m mo : String) (nl : Nat) :
    skipAttempt m ⟨mo, AttemptType.primary, nl⟩ = false := rfl

theorem skipAttempt_fallback (m mo : String) (nl : Nat) :
    skipAttempt m ⟨mo, AttemptType.fallback, nl⟩ = false := rfl

theorem skipAttempt_nanoRetry (m mo : String) (nl : Nat) :
    skipAttempt m ⟨mo, AttemptType.nanoRetry, nl⟩ = !isNanoModel m := rfl

theorem effectivePlan_nano (m : String) (h : isNanoModel m = true) :
    effectivePlan m = attempts m := by
  unfold effectivePlan attempts
  simp [List.filter, skipAttempt_primary, skipAttempt_fallback, skipAttempt_nanoRetry, h]

theorem effectivePlan_general (m : String) (h : isNanoModel m = false) :
    effectivePlan m =
      [⟨m, AttemptType.primary, 150⟩, ⟨"gpt-4o-mini", AttemptType.fallback, 150⟩] := by
  unfold effectivePlan attempts
  simp [List.filter, skipAttempt_primary, skipAttempt_fallback, skipAttempt_nanoRetry, h]

theorem effectivePlan_skipfree (m : String) :
    ∀ a ∈ effectivePlan m, skipAttempt m a = false := by
  intro a ha
  have := List.of_mem_filter ha
  simpa using this

theorem effectivePlan_ne_nil (m : String) : effectivePlan m ≠ [] := by
  cases h : isNanoModel m with
  | true => rw [effectivePlan_nano m h]; simp [attempts]
  | false => rw [effectivePlan_general m h]; simp

/-- The temperature constant of the legacy revision
(src/index.js line 67: `temperature: 0.8`). -/
def legacyChatTemperature : ℚ := 4 / 5

/-- System prompt of the legacy nano branch (src/index.js line 50). -/
def legacyNanoSystemPrompt : String :=
  "You are a helpful Hinglish assistant. Keep replies short and clear."

/-- The inline parameter construction of the legacy revision
(src/index.js lines 42-68).  Note the model test there does not
lowercase the identifier. -/
def legacyBuildParams (modelToUse message : String) : RequestParams :=
  if strIncludes modelToUse "gpt-5-nano" then
    { model := modelToUse
      messages := [⟨"system", legacyNanoSystemPrompt⟩, ⟨"user", message⟩]
      limit := TokenLimitField.maxCompletionTokens 400
      temperature := none }
  else
    { model := modelToUse
      messages := [⟨"system", generalSystemPrompt⟩, ⟨"user", message⟩]
      limit := TokenLimitField.maxTokens 400
      temperature := some legacyChatTemperature }

/-- A client answering every call with the same outcome. -/
def clientConst (r : ClientResult) : CompletionClient := fun _ _ => r

/-- A completion whose first choice carries empty content. -/
def emptyCompletion : Completion := ⟨[⟨some ⟨some ""⟩, some "length"⟩], some ⟨some 7⟩⟩

/-- A completion whose first choice carries real text. -/
def fullCompletion : Completion := ⟨[⟨some ⟨some "Theek hai!"⟩, some "stop"⟩], some ⟨some 42⟩⟩

/-- A stub returning empty text on the first two calls and real text on
the third. -/
def stubThirdSucceeds : CompletionClient := fun n _ =>
  if n < 2 then ClientResult.ok emptyCompletion else ClientResult.ok fullCompletion

/-- A stub that always returns empty text. -/
def stubAlwaysEmpty : CompletionClient := fun _ _ => ClientResult.ok emptyCompletion

/-- A stub that throws an unrecognized (rate-limit style) error on the
first call and succeeds afterwards. -/
def stubRateLimited : CompletionClient := fun n _ =>
  if n = 0 then ClientResult.err "Rate limit exceeded, retry later"
  else ClientResult.ok fullCompletion

/-- A stub that succeeds immediately. -/
def stubImmediate : CompletionClient := fun _ _ => ClientResult.ok fullCompletion

/-- C5: for every model identifier matching the narrow family
case-insensitively, every user message and every options bag,
`buildParams` emits the short-reply system instruction, a single user
message, `max_completion_tokens` set to the narrow limit option
(default 150) and no temperature field. -/
theorem buildParams_nano_family (model userMessage : String) (opts : BuildOpts)
    (h : isNanoModel model = true) :
    buildParams model userMessage opts =
      { model := model
        messages := [⟨"system", nanoSystemPrompt⟩, ⟨"user", userMessage⟩]
        limit := TokenLimitField.maxCompletionTokens (opts.nanoLimit.getD 150)
        temperature := none } := by
  simp [buildParams, h]

theorem buildParams_nano_family_witness :
    isNanoModel "GPT-5-NANO" = true ∧
    buildParams "GPT-5-NANO" "hello" ⟨none⟩ =
      { model := "GPT-5-NANO"
        messages := [⟨"system", nanoSystemPrompt⟩, ⟨"user", "hello"⟩]
        limit := TokenLimitField.maxCompletionTokens 150
        temperature := none } :=
  ⟨by decide, buildParams_nano_family "GPT-5-NANO" "hello" ⟨none⟩ (by decide)⟩

/-- C6: for every model identifier not matching the narrow family,
`buildParams` emits a single user message, `max_tokens` fixed at 400 and
a temperature drawn from a named constant lying in the 0.8-1.0 range;
the legacy revision's inline construction likewise uses a constant in
that range (the two revisions fix 1.0 and 0.8 respectively). -/
theorem buildParams_general_family :
    (∀ (model userMessage : String) (opts : BuildOpts), isNanoModel model = false →
      buildParams model userMessage opts =
        { model := model
          messages := [⟨"system", generalSystemPrompt⟩, ⟨"user", userMessage⟩]
          limit := TokenLimitField.maxTokens 400
          temperature := some chatTemperature }) ∧
    (4 / 5 : ℚ) ≤ chatTemperature ∧ chatTemperature ≤ 1 ∧
    (∀ modelToUse message : String, strIncludes modelToUse "gpt-5-nano" = false →
      (legacyBuildParams modelToUse message).temperature = some legacyChatTemperature) ∧
    (4 / 5 : ℚ) ≤ legacyChatTemperature ∧ legacyChatTemperature ≤ 1 := by
  refine ⟨?_, by norm_num [chatTemperature], by norm_num [chatTemperature], ?_,
    by norm_num [legacyChatTemperature], by norm_num [legacyChatTemperature]⟩
  · intro model userMessage opts h
    simp [buildParams, h]
  · intro modelToUse message h
    simp [legacyBuildParams, h]

theorem buildParams_general_family_witness :
    buildParams "gpt-4o-mini" "kya haal" ⟨none⟩ =
      { model := "gpt-4o-mini"
        messages := [⟨"system", generalSystemPrompt⟩, ⟨"user", "kya haal"⟩]
        limit := TokenLimitField.maxTokens 400
        temperature := some chatTemperature } ∧
    (legacyBuildParams "gpt-4o-mini" "kya haal").temperature = some legacyChatTemperature :=
  ⟨buildParams_general_family.1 "gpt-4o-mini" "kya haal" ⟨none⟩ (by decide),
   buildParams_general_family.2.2.2.1 "gpt-4o-mini" "kya haal" (by decide)⟩

/-- C9: `buildParams` is deterministic and depends on nothing outside its
three arguments: two runs on equal inputs produce identical
`RequestParams` values. -/
theorem buildParams_deterministic (m1 m2 msg1 msg2 : String) (o1 o2 : BuildOpts)
    (hm : m1 = m2) (hmsg : msg1 = msg2) (ho : o1 = o2) :
    buildParams m1 msg1 o1 = buildParams m2 msg2 o2 := by
  subst hm; subst hmsg; subst ho; rfl

theorem buildParams_deterministic_witness :
    buildParams "gpt-5-nano" "hi" ⟨some 80⟩ = buildParams "gpt-5-nano" "hi" ⟨some 80⟩ :=
  buildParams_deterministic "gpt-5-nano" "gpt-5-nano" "hi" "hi" ⟨some 80⟩ ⟨some 80⟩ rfl rfl rfl

/-- C2: the orchestrator walks exactly the effective plan (skipped
entries are neither attempted nor counted); a narrow-family configured
model yields three attempted entries whose second is the narrow retry
with limit 80, any other model yields exactly the two entries primary
then fallback. -/
theorem attemptPlan_shape (m userMessage : String) (client : CompletionClient) :
    callOpenAIWithRetries m userMessage client =
        runAttempts m userMessage client (effectivePlan m) 0 none ∧
    (isNanoModel m = true →
      (effectivePlan m).length = 3 ∧
      ((effectivePlan m).getD 1 dummyAttempt).type = AttemptType.nanoRetry ∧
      ((effectivePlan m).getD 1 dummyAttempt).nanoLimit = 80) ∧
    (isNanoModel m = false →
      effectivePlan m =
        [⟨m, AttemptType.primary, 150⟩, ⟨"gpt-4o-mini", AttemptType.fallback, 150⟩]) := by
  refine ⟨callOpenAI_eq_effective m userMessage client, ?_, ?_⟩
  · intro h
    rw [effectivePlan_nano m h]
    simp [attempts]
  · intro h
    exact effectivePlan_general m h

theorem attemptPlan_shape_witness :
    ((effectivePlan "gpt-5-nano").length = 3 ∧
      ((effectivePlan "gpt-5-nano").getD 1 dummyAttempt).nanoLimit = 80) ∧
    effectivePlan "gpt-4o-mini" =
      [⟨"gpt-4o-mini", AttemptType.primary, 150⟩,
       ⟨"gpt-4o-mini", AttemptType.fallback, 150⟩] :=
  ⟨⟨((attemptPlan_shape "gpt-5-nano" "hi" (clientConst (ClientResult.ok fullCompletion))).2.1
      (by decide)).1,
    ((attemptPlan_shape "gpt-5-nano" "hi" (clientConst (ClientResult.ok fullCompletion))).2.1
      (by decide)).2.2⟩,
   (attemptPlan_shape "gpt-4o-mini" "hi" (clientConst (ClientResult.ok fullCompletion))).2.2
     (by decide)⟩

/-- C1: for every attempt plan and every sequence of client outcomes the
orchestrator makes between 1 and plan-length client calls, walks the
plan in order, and on the first attempt whose extracted text is
non-empty it stops, returning that attempt's model as `modelUsed` after
exactly `j + 1` calls. -/
theorem orchestrator_bounded_first_success (m userMessage : String)
    (client : CompletionClient) :
    (1 ≤ (callOpenAIWithRetries m userMessage client).2 ∧
      (callOpenAIWithRetries m userMessage client).2 ≤ (effectivePlan m).length) ∧
    (∀ j, j < (effectivePlan m).length →
      (∀ i, i < j → stepSucc userMessage client (effectivePlan m) 0 i = false) →
      stepSucc userMessage client (effectivePlan m) 0 j = true →
      ∃ c, (callOpenAIWithRetries m userMessage client).1 =
          OrchOutcome.success c ((effectivePlan m).getD j dummyAttempt).model ∧
        (callOpenAIWithRetries m userMessage client).2 = j + 1) := by
  rw [callOpenAI_eq_effective m userMessage client]
  refine ⟨⟨?_, ?_⟩, ?_⟩
  · cases hp : effectivePlan m with
    | nil => exact absurd hp (effectivePlan_ne_nil m)
    | cons a rest =>
      have hskip : skipAttempt m a = false :=
        effectivePlan_skipfree m a (hp ▸ List.mem_cons_self a rest)
      simpa using runAttempts_calls_pos m userMessage client a rest 0 none hskip
  · simpa using runAttempts_calls_le m userMessage client (effectivePlan m) 0 none
  · intro j hj hfail hsucc
    obtain ⟨c, _, hrun⟩ := runAttempts_first_success m userMessage client
      (effectivePlan m) 0 none j (effectivePlan_skipfree m) hj hfail hsucc
    refine ⟨c, ?_, ?_⟩
    · rw [hrun]
    · rw [hrun]; simp

theorem orchestrator_bounded_first_success_witness :
    ∃ c, (callOpenAIWithRetries "gpt-5-nano" "namaste" stubThirdSucceeds).1 =
        OrchOutcome.success c "gpt-4o-mini" ∧
      (callOpenAIWithRetries "gpt-5-nano" "namaste" stubThirdSucceeds).2 = 3 := by
  obtain ⟨c, h1, h2⟩ :=
    (orchestrator_bounded_first_success "gpt-5-nano" "namaste" stubThirdSucceeds).2 2
      (by decide) (by decide) (by decide)
  exact ⟨c, h1, h2⟩

/-- C3: every exception a client call raises, whatever its message
(recognized substring or not, e.g. rate limiting), is recorded as the
new `lastError` and converted into advancing to the next plan entry;
the orchestrator always produces a well-formed result, either a success
carrying a completion and model or an exhausted result carrying the
last error. -/
theorem orchestrator_absorbs_failures :
    (∀ (m userMessage : String) (client : CompletionClient) (a : Attempt)
        (rest : List Attempt) (calls : Nat) (le : Option String) (e : String),
      skipAttempt m a = false →
      client calls (buildParams a.model userMessage ⟨some a.nanoLimit⟩) =
        ClientResult.err e →
      runAttempts m userMessage client (a :: rest) calls le =
        runAttempts m userMessage client rest (calls + 1) (some e)) ∧
    (∀ (m userMessage : String) (client : CompletionClient),
      (∃ c mu, (callOpenAIWithRetries m userMessage client).1 =
        OrchOutcome.success c mu) ∨
      (∃ le, (callOpenAIWithRetries m userMessage client).1 =
        OrchOutcome.exhausted le)) := by
  constructor
  · exact fun m um client a rest calls le e h1 h2 =>
      runAttempts_err_step m um client a rest calls le e h1 h2
  · intro m um client
    cases h : (callOpenAIWithRetries m um client).1 with
    | success c mu => exact Or.inl ⟨c, mu, rfl⟩
    | exhausted le => exact Or.inr ⟨le, rfl⟩

theorem orchestrator_absorbs_failures_witness :
    runAttempts "gpt-4o-mini" "hi" stubRateLimited
        (⟨"gpt-4o-mini", AttemptType.primary, 150⟩ ::
          [⟨"gpt-4o-mini", AttemptType.nanoRetry, 80⟩,
           ⟨"gpt-4o-mini", AttemptType.fallback, 150⟩]) 0 none =
      runAttempts "gpt-4o-mini" "hi" stubRateLimited
        [⟨"gpt-4o-mini", AttemptType.nanoRetry, 80⟩,
         ⟨"gpt-4o-mini", AttemptType.fallback, 150⟩] 1
        (some "Rate limit exceeded, retry later") :=
  orchestrator_absorbs_failures.1 "gpt-4o-mini" "hi" stubRateLimited
    ⟨"gpt-4o-mini", AttemptType.primary, 150⟩ _ 0 none
    "Rate limit exceeded, retry later" (by decide) (by decide)

/-- C4: when every attempted entry fails (throws or yields empty text),
the orchestrator returns the exhausted result - no completion, no model,
token count 0 - whose `lastError` is the condition recorded by the most
recent attempt, after exactly plan-length client calls. -/
theorem orchestrator_exhausted (m userMessage : String) (client : CompletionClient)
    (hfail : ∀ i, i < (effectivePlan m).length →
      stepSucc userMessage client (effectivePlan m) 0 i = false) :
    (callOpenAIWithRetries m userMessage client).1 =
        OrchOutcome.exhausted (some (failCond
          (stepOutcome userMessage client (effectivePlan m) 0
            ((effectivePlan m).length - 1)))) ∧
    ((callOpenAIWithRetries m userMessage client).1).modelUsedOf = none ∧
    ((callOpenAIWithRetries m userMessage client).1).completionOf = none ∧
    ((callOpenAIWithRetries m userMessage client).1).tokenCountOf = 0 ∧
    (callOpenAIWithRetries m userMessage client).2 = (effectivePlan m).length := by
  have h := runAttempts_all_fail m userMessage client (effectivePlan m) 0 none
    (effectivePlan_skipfree m) (effectivePlan_ne_nil m) hfail
  rw [callOpenAI_eq_effective m userMessage client, h]
  exact ⟨rfl, rfl, rfl, rfl, by simp⟩

theorem orchestrator_exhausted_witness :
    (callOpenAIWithRetries "gpt-4o-mini" "hi" stubAlwaysEmpty).1 =
        OrchOutcome.exhausted (some "empty_response") ∧
      (callOpenAIWithRetries "gpt-4o-mini" "hi" stubAlwaysEmpty).2 = 2 := by
  have h := orchestrator_exhausted "gpt-4o-mini" "hi" stubAlwaysEmpty (by decide)
  exact ⟨h.1.trans (by decide), h.2.2.2.2.trans (by decide)⟩

theorem nonEmptyText_spec (c : Completion) (s : String)
    (h : nonEmptyText c = some s) :
    s ≠ "" ∧ ∀ d : String, jsOr (extractText c) d = s := by
  cases hx : extractText c with
  | none =>
    simp only [nonEmptyText, hx] at h
    exact absurd h (by simp)
  | some t =>
    simp only [nonEmptyText, hx] at h
    by_cases ht : t = ""
    · rw [if_pos ht] at h; exact absurd h (by simp)
    · rw [if_neg ht] at h
      obtain rfl : t = s := by injection h
      exact ⟨ht, fun d => by simp [jsOr, hx, ht]⟩

/-- C10: whenever the orchestrator returns a completion, the extracted
trimmed text is non-empty and `modelUsed` is non-null, so the
empty-response placeholder substituted by `aiMessage || placeholder` in
the endpoint's success path can never be chosen. -/
theorem success_text_nonempty (m userMessage : String) (client : CompletionClient)
    (c : Completion) (mu : String)
    (h : (callOpenAIWithRetries m userMessage client).1 = OrchOutcome.success c mu) :
    ∃ s, nonEmptyText c = some s ∧ s ≠ "" ∧
      (∀ d : String, jsOr (extractText c) d = s) ∧
      (OrchOutcome.success c mu).modelUsedOf = some mu := by
  obtain ⟨s, hs⟩ :=
    runAttempts_success_nonempty m userMessage client (attempts m) 0 none c mu h
  obtain ⟨hne, hor⟩ := nonEmptyText_spec c s hs
  exact ⟨s, hs, hne, hor, rfl⟩

theorem success_text_nonempty_witness :
    ∃ s, nonEmptyText fullCompletion = some s ∧ s ≠ "" ∧
      (∀ d : String, jsOr (extractText fullCompletion) d = s) ∧
      (OrchOutcome.success fullCompletion "gpt-4o-mini").modelUsedOf =
        some "gpt-4o-mini" :=
  success_text_nonempty "gpt-4o-mini" "hi" stubImmediate fullCompletion "gpt-4o-mini"
    (by decide)

/-- The destructured request body `{ userId, sessionId, tileId, message }`
(part_001 line 141); `none` models an absent field. -/
structure ChatRequest where
  userId : Option String
  sessionId : Option String
  tileId : Option String
  message : Option String

/-- The collaborators and configuration the `/api/chat` handler consults:
the quota ceiling, the configured model, the completion client, and the
outcome of each awaited remote operation in program order. -/
structure ChatEnv where
  freeTokenLimit : Nat
  configuredModel : String
  client : CompletionClient
  getTokensResult : Except String Nat
  insertResult : Except String Unit
  addTokensResult : Except String Nat
  finalGetTokensResult : Except String Nat

/-- JavaScript truthiness of `userId` / `message`: present and not the
empty string. -/
def truthyOpt : Option String → Bool
  | none => false
  | some s => !(s == "")

/-- The possible responses of the `/api/chat` handler
(part_001 lines 139-193). -/
inductive ChatResponse where
  | badRequest
  | quotaExhausted
  | modelFailure (details : String)
  | chatOk (message : String) (tokensUsed : Nat) (totalTokens : Option Nat)
  | serverError (details : String)
  deriving DecidableEq

/-- The HTTP status the handler attaches to each response. -/
def ChatResponse.statusOf : ChatResponse → Nat
  | .badRequest => 400
  | .quotaExhausted => 402
  | .modelFailure _ => 500
  | .chatOk _ _ _ => 200
  | .serverError _ => 500

/-- The machine-readable `error` field of each response body. -/
def ChatResponse.errorField : ChatResponse → Option String
  | .badRequest => some "Missing fields"
  | .quotaExhausted => some "quota_exhausted"
  | .modelFailure _ => some "model_failure"
  | .chatOk _ _ _ => none
  | .serverError _ => some "server_error"

/-- A `try { await w } catch (e) { console.error(e) }` block around a
persistence write: both outcomes fall through (part_001 lines 170-184). -/
def absorbFailure {α : Type} : Except String α → Unit
  | Except.ok _ => ()
  | Except.error _ => ()

/-- `await getTokens(userId).catch(() => null)` (part_001 line 187). -/
def caughtTotal : Except String Nat → Option Nat
  | Except.ok n => some n
  | Except.error _ => none

def emptyRespPlaceholder : String :=
  "😅 Mujhe samajh nahi aaya (empty response after retries)"

/-- The `/api/chat` handler of the current revision
(part_001 lines 139-193).  The second component counts completion-client
invocations (0 on every path that returns before orchestration). -/
def chatEndpoint (env : ChatEnv) (req : ChatRequest) : ChatResponse × Nat :=
  if !truthyOpt req.userId || !truthyOpt req.message then
    (ChatResponse.badRequest, 0)
  else
    match env.getTokensResult with
    | Except.error e => (ChatResponse.serverError e, 0)
    | Except.ok usedTokens =>
      if env.freeTokenLimit ≤ usedTokens then
        (ChatResponse.quotaExhausted, 0)
      else
        match callOpenAIWithRetries env.configuredModel (req.message.getD "") env.client with
        | (OrchOutcome.exhausted le, calls) =>
          (ChatResponse.modelFailure (jsOr le "no_response_from_model"), calls)
        | (OrchOutcome.success completion _modelUsed, calls) =>
          let aiMessage := jsOr (extractText completion) emptyRespPlaceholder
          let tokenCount := (completion.usage.bind fun u => u.total_tokens).getD 0
          let _dbWrite := absorbFailure env.insertResult
          let _ledgerWrite := absorbFailure env.addTokensResult
          (ChatResponse.chatOk aiMessage tokenCount
            (caughtTotal env.finalGetTokensResult), calls)

/-- C7: whenever the recorded usage reaches the ceiling (equality
included), the endpoint rejects with the payment-required response
carrying reason `quota_exhausted` and the completion client is never
invoked. -/
theorem quota_gate_blocks (env : ChatEnv) (req : ChatRequest) (used : Nat)
    (hu : truthyOpt req.userId = true)
    (hm : truthyOpt req.message = true)
    (hg : env.getTokensResult = Except.ok used)
    (hq : env.freeTokenLimit ≤ used) :
    chatEndpoint env req = (ChatResponse.quotaExhausted, 0) ∧
    ChatResponse.quotaExhausted.statusOf = 402 ∧
    ChatResponse.quotaExhausted.errorField = some "quota_exhausted" := by
  refine ⟨?_, rfl, rfl⟩
  simp [chatEndpoint, hu, hm, hg, hq]

theorem quota_gate_blocks_witness :
    chatEndpoint ⟨100000, "gpt-4o-mini", stubImmediate, Except.ok 100000, Except.ok (),
        Except.ok 100000, Except.ok 100000⟩
      ⟨some "user-1", some "sess", none, some "hello"⟩ =
      (ChatResponse.quotaExhausted, 0) :=
  (quota_gate_blocks
    ⟨100000, "gpt-4o-mini", stubImmediate, Except.ok 100000, Except.ok (),
      Except.ok 100000, Except.ok 100000⟩
    ⟨some "user-1", some "sess", none, some "hello"⟩ 100000
    (by decide) (by decide) rfl (by decide)).1

/-- C8: on every successful orchestration outcome the answer is returned
to the user whatever the persistence writes do: two runs differing only
in the message-log insert, token-ledger update and final ledger read
both return the 200 response with the same message and token count. -/
theorem persistence_failures_swallowed
    (limit : Nat) (cm : String) (client : CompletionClient)
    (gt : Except String Nat)
    (ins ins' : Except String Unit) (tok tok' : Except String Nat)
    (fin fin' : Except String Nat)
    (req : ChatRequest) (used : Nat) (c : Completion) (mu : String)
    (hu : truthyOpt req.userId = true)
    (hm : truthyOpt req.message = true)
    (hg : gt = Except.ok used)
    (hq : ¬ limit ≤ used)
    (hs : (callOpenAIWithRetries cm (req.message.getD "") client).1 =
      OrchOutcome.success c mu) :
    ∃ s n k,
      chatEndpoint ⟨limit, cm, client, gt, ins, tok, fin⟩ req =
        (ChatResponse.chatOk s n (caughtTotal fin), k) ∧
      chatEndpoint ⟨limit, cm, client, gt, ins', tok', fin'⟩ req =
        (ChatResponse.chatOk s n (caughtTotal fin'), k) := by
  subst hg
  cases hp : callOpenAIWithRetries cm (req.message.getD "") client with
  | mk o k =>
    rw [hp] at hs
    have ho : o = OrchOutcome.success c mu := hs
    subst ho
    refine ⟨jsOr (extractText c) emptyRespPlaceholder,
      (c.usage.bind fun u => u.total_tokens).getD 0, k, ?_, ?_⟩
    all_goals simp [chatEndpoint, hu, hm, hq, hp]

theorem persistence_failures_swallowed_witness :
    ∃ s n k,
      chatEndpoint
          ⟨100000, "gpt-4o-mini", stubImmediate, Except.ok 5, Except.ok (),
            Except.ok 47, Except.ok 47⟩
          ⟨some "u", some "sess", none, some "hello"⟩ =
        (ChatResponse.chatOk s n (caughtTotal (Except.ok 47)), k) ∧
      chatEndpoint
          ⟨100000, "gpt-4o-mini", stubImmediate, Except.ok 5, Except.error "db down",
            Except.error "ledger down", Except.error "read failed"⟩
          ⟨some "u", some "sess", none, some "hello"⟩ =
        (ChatResponse.chatOk s n (caughtTotal (Except.error "read failed")), k) :=
  persistence_failures_swallowed 100000 "gpt-4o-mini" stubImmediate (Except.ok 5)
    (Except.ok ()) (Except.error "db down") (Except.ok 47) (Except.error "ledger down")
    (Except.ok 47) (Except.error "read failed")
    ⟨some "u", some "sess", none, some "hello"⟩ 5 fullCompletion "gpt-4o-mini"
    (by decide) (by decide) rfl (by decide) (by decide)
